import Mathlib

/-!
Shallow embedding of the executable content of the qiskit-ibm-runtime
documentation notebooks:

* `heavy_projector` — the heavy-output projector of the quantum-volume
  section (median thresholding over a probability dictionary);
* `main` — the custom expectation-value runtime program, parametrised over
  an environment that models the external calls it wraps (Qiskit
  `transpile`, `backend.run`, and the mthree measurement-mitigation
  library);
* `expectation_value_runner` — the client-side wrapper that validates and
  broadcasts the circuit/operator lists before submitting a run request;
* the `sample-expval` program metadata dictionary;
* spec-modelled fragments of the external SDK surface exercised by the
  notebooks (the `Estimator` context object, `QiskitRuntimeService`
  with `backends`/`upload_program`/`run`, and blocking job results).

Dictionaries are modelled as association lists (insertion order is the
iteration order, as for Python dicts), probabilities as rationals, and
fallible code returns `Except`.
-/

/-- Insertion of a rational into a sorted list, used to model the sort
performed inside `numpy.median`. -/
def insertSorted (x : ℚ) : List ℚ → List ℚ
  | [] => [x]
  | y :: ys => if x ≤ y then x :: y :: ys else y :: insertSorted x ys

/-- Insertion sort on rationals (ascending), modelling the sorting step of
`numpy.median`. -/
def sortQ : List ℚ → List ℚ
  | [] => []
  | x :: xs => insertSorted x (sortQ xs)

/-- Model of `numpy.median` on a list of rationals: sort the values; for an
odd count take the middle element, for an even count average the two middle
elements.  (`np.median` of an empty list is NaN; here the junk value `0` is
returned, and every statement about medians assumes a non-empty list.) -/
def npMedian (xs : List ℚ) : ℚ :=
  let s := sortQ xs
  let n := s.length
  if n % 2 = 1 then s.getD (n / 2) 0
  else (s.getD (n / 2 - 1) 0 + s.getD (n / 2) 0) / 2

/-- Embedding of `heavy_projector` from
`docs/tutorials/how-to-getting-started-with-estimator.ipynb`:

    median_prob = np.median(list(qv_probs.values()))
    heavy_strs = {}
    for key, val in qv_probs.items():
        if val > median_prob:
            heavy_strs[key] = 1
    return heavy_strs

The probability dictionary is an association list of bitstrings and
probabilities; iterating and inserting in order is a filter followed by
replacing each kept value with `1`. -/
def heavy_projector (qv_probs : List (String × ℚ)) : List (String × ℚ) :=
  let median_prob := npMedian (qv_probs.map Prod.snd)
  (qv_probs.filter fun kv => decide (median_prob < kv.2)).map fun kv => (kv.1, 1)

/-- A circuit argument of the runtime program and of the wrapper: Python
accepts a single `QuantumCircuit` or a list of them. -/
inductive CircInput (C : Type) where
  | single (c : C)
  | list (cs : List C)
deriving DecidableEq

/-- An `expectation_operators` argument: a single operator (a string or a
dict in Python) or a list of operators. -/
inductive OpsInput (O : Type) where
  | single (o : O)
  | list (os : List O)
deriving DecidableEq

/-- Data flowing through the mitigation pipeline of `main`: either a single
item (a lone counts dict, or a lone quasi-probability distribution) or a
list-like collection of items (a list of counts dicts, or an mthree
`QuasiCollection`). -/
inductive MitData (A : Type) where
  | single (a : A)
  | list (as : List A)
deriving DecidableEq

/-- The value `main` returns: an array of expectation values, or an array of
(expectation, stddev) pairs when `return_stddev=True`. -/
inductive MainOut (V : Type) where
  | vals (xs : List V)
  | pairs (xs : List (V × V))
deriving DecidableEq

/-- Number of entries in the array returned by `main`. -/
def MainOut.outLen {V : Type} : MainOut V → ℕ
  | .vals xs => xs.length
  | .pairs xs => xs.length

/-- Whether `main` returned (expectation, stddev) pairs rather than plain
expectation values. -/
def MainOut.isPairs {V : Type} : MainOut V → Bool
  | .vals _ => false
  | .pairs _ => true

/-- The external functions `main` wraps, as opaque parameters: Qiskit
transpilation and execution, and the mthree measurement-mitigation library.
`C` circuits, `K` counts dicts, `Q` quasi-probability distributions, `O`
operators, `V` numeric values, `M` measurement mappings.

* `transpile1` — `qiskit.transpile` on one circuit (backend and
  `transpiler_config` fixed);
* `run1` — counts from executing one circuit (`backend.run(...).result()`,
  shots and `run_config` fixed);
* `finalMeasurementMapping` — `mthree.utils.final_measurement_mapping`;
* `correct1` — `M3Mitigation` calibrated with `cals_from_system` over the
  given mapping, then `apply_correction` of one counts dict, with the
  `return_mitigation_overhead` flag last;
* `expval1` / `expvalStddev1` — `mthree.utils.expval` and
  `expval_and_stddev` on one counts dict and one operator;
* `qexpval1` / `qexpvalStddev1` — the `expval` and `expval_and_stddev`
  methods of a quasi-probability distribution on one operator. -/
structure MthreeEnv (C K Q O V M : Type) where
  transpile1 : C → C
  run1 : C → K
  finalMeasurementMapping : List C → M
  correct1 : M → K → Bool → Q
  expval1 : K → O → V
  expvalStddev1 : K → O → V × V
  qexpval1 : Q → O → V
  qexpvalStddev1 : Q → O → V × V

/-- The `trans_circuits` list of `main`: unless `skip_transpilation` is set,
transpile the input (Qiskit maps a list elementwise and keeps a single
circuit single), then wrap a single circuit into a one-element list. -/
def transCircuitsOf {C K Q O V M : Type} (env : MthreeEnv C K Q O V M)
    (circuits : CircInput C) (skip_transpilation : Bool) : List C :=
  if skip_transpilation = false then
    match circuits with
    | .single c => [env.transpile1 c]
    | .list cs => cs.map env.transpile1
  else
    match circuits with
    | .single c => [c]
    | .list cs => cs

/-- The `duplicate_results` flag of `main`: set when `expectation_operators`
is a non-empty list but only one circuit is executed. -/
def duplicateResults {O C : Type} (expectation_operators : OpsInput O)
    (trans_circuits : List C) : Bool :=
  match expectation_operators with
  | .list os => !os.isEmpty && trans_circuits.length == 1
  | .single _ => false

/-- `len(expectation_operators)` for a list argument (only evaluated by
`main` when the argument is a list). -/
def opsLen {O : Type} : OpsInput O → ℕ
  | .single _ => 1
  | .list os => os.length

/-- Qiskit `Result.get_counts()`: a single counts dict when exactly one
experiment was run, otherwise the list of counts dicts. -/
def getCounts {K : Type} (ks : List K) : MitData K :=
  match ks with
  | [k] => .single k
  | ks => .list ks

/-- Pointwise image of mitigation-pipeline data (`apply_correction` maps a
single counts dict to a single distribution and a list to a collection). -/
def mapData {A B : Type} (f : A → B) : MitData A → MitData B
  | .single a => .single (f a)
  | .list as => .list (as.map f)

/-- Python `[x] * k` on mitigation-pipeline data, as used by
`QuasiCollection([quasi_dists] * len(ops))` and
`raw_counts = [raw_counts] * len(ops)`.  `main` only duplicates when
`duplicate_results` holds, which forces the single case; the list case is
unreachable there and is kept unchanged. -/
def dupData {A : Type} (k : ℕ) : MitData A → MitData A
  | .single a => .list (List.replicate k a)
  | .list as => .list as

/-- The pairing mthree applies between counts-like data and the
`expectation_operators` argument: a single item and a single operator give
one value, a single operator is evaluated against every item of a
collection, a single item against every operator of a list, and two lists
are paired elementwise. -/
def expvalD {A O V : Type} (f : A → O → V) :
    MitData A → OpsInput O → List V
  | .single a, .single o => [f a o]
  | .single a, .list os => os.map (f a)
  | .list as, .single o => as.map fun a => f a o
  | .list as, .list os => List.zipWith f as os

/-- Embedding of the runtime program `main` from
`docs/tutorials/how-to-getting-started-with-estimator.ipynb` (the
`sample_expval.py` cell), parametrised over the external environment.  The
`backend`, `user_messenger`, `shots`, `transpiler_config` and `run_config`
arguments are absorbed into `env`; the control flow — transpilation,
the `duplicate_results` flag, calibration and correction when
`use_measurement_mitigation`, duplication of a single result, and the
`return_stddev` choice between `expval` and `expval_and_stddev` — follows
the Python line by line.  (Lean reserves the bare name `main`, so the
definition lives in the `SampleExpval` namespace, after the
`sample_expval.py` file the cell writes.) -/
def SampleExpval.main {C K Q O V M : Type} (env : MthreeEnv C K Q O V M)
    (circuits : CircInput C) (expectation_operators : OpsInput O)
    (skip_transpilation return_stddev use_measurement_mitigation : Bool) :
    MainOut V :=
  let trans_circuits := transCircuitsOf env circuits skip_transpilation
  let duplicate_results := duplicateResults expectation_operators trans_circuits
  let raw_counts : MitData K := getCounts (trans_circuits.map env.run1)
  if use_measurement_mitigation then
    let meas_maps := env.finalMeasurementMapping trans_circuits
    let quasi_dists :=
      mapData (fun k => env.correct1 meas_maps k return_stddev) raw_counts
    let quasi_dists :=
      if duplicate_results then dupData (opsLen expectation_operators) quasi_dists
      else quasi_dists
    if return_stddev then
      .pairs (expvalD env.qexpvalStddev1 quasi_dists expectation_operators)
    else
      .vals (expvalD env.qexpval1 quasi_dists expectation_operators)
  else
    let raw_counts :=
      if duplicate_results then dupData (opsLen expectation_operators) raw_counts
      else raw_counts
    if return_stddev then
      .pairs (expvalD env.expvalStddev1 raw_counts expectation_operators)
    else
      .vals (expvalD env.expval1 raw_counts expectation_operators)

/-- A backend object as the notebooks see it: something carrying a name
(`backend.name`). -/
structure IBMBackend where
  name : String
deriving DecidableEq

/-- The `backend` argument of `expectation_value_runner`: a backend name or
a backend object. -/
inductive BackendIn where
  | str (s : String)
  | obj (b : IBMBackend)
deriving DecidableEq

/-- The name-extraction step at the top of `expectation_value_runner`:
`if not isinstance(backend, str): backend = backend.name`. -/
def backendNameOf : BackendIn → String
  | .str s => s
  | .obj b => b.name

/-- The `inputs` dictionary `expectation_value_runner` assembles for
`service.run`.  `TC` and `RC` are the (opaque) types of the
`transpiler_config` and `run_config` dictionaries. -/
structure RunInputs (C O TC RC : Type) where
  circuits : CircInput C
  expectation_operators : OpsInput O
  shots : ℕ
  transpiler_config : TC
  run_config : RC
  return_stddev : Bool
  skip_transpilation : Bool
  use_measurement_mitigation : Bool
deriving DecidableEq

/-- The run request `expectation_value_runner` submits through
`service.run(program_id, options=options, inputs=inputs)`: the program id,
the `options` dictionary (holding the backend name) and the inputs. -/
structure RunSubmission (C O TC RC : Type) where
  program_id : String
  backend_name : String
  inputs : RunInputs C O TC RC
deriving DecidableEq

/-- Python `xs * n` on lists: `n` concatenated copies of `xs`, as in
`expectation_operators * len(circuits)`. -/
def pyListMul {A : Type} (xs : List A) (n : ℕ) : List A :=
  (List.replicate n xs).flatten

/-- Embedding of `expectation_value_runner` from
`docs/tutorials/how-to-getting-started-with-estimator.ipynb`:

    if not isinstance(backend, str):
        backend = backend.name
    options = {"backend_name": backend}
    if isinstance(circuits, list) and len(circuits) != 1:
        if isinstance(expectation_operators, list):
            if len(circuits) != 1 and len(expectation_operators) == 1:
                expectation_operators = expectation_operators * len(circuits)
            elif len(circuits) != len(expectation_operators):
                raise ValueError(...)
    inputs = {...}
    return service.run(program_id, options=options, inputs=inputs)

A raised `ValueError` is `Except.error`; a submitted run request is
`Except.ok`, so no request reaches the service on the error path. -/
def expectation_value_runner {C O TC RC : Type} (program_id : String)
    (backend : BackendIn) (circuits : CircInput C)
    (expectation_operators : OpsInput O) (shots : ℕ)
    (transpiler_config : TC) (run_config : RC)
    (skip_transpilation return_stddev use_measurement_mitigation : Bool) :
    Except String (RunSubmission C O TC RC) :=
  let backend_name := backendNameOf backend
  let checkedOps : Except String (OpsInput O) :=
    match circuits, expectation_operators with
    | .list cs, .list os =>
      if cs.length ≠ 1 then
        if cs.length ≠ 1 ∧ os.length = 1 then
          .ok (.list (pyListMul os cs.length))
        else if cs.length ≠ os.length then
          .error "Number of circuits must match number of expectation values if more than one of each"
        else .ok (.list os)
      else .ok (.list os)
    | _, ops => .ok ops
  checkedOps.map fun eo =>
    { program_id := program_id
      backend_name := backend_name
      inputs :=
        { circuits := circuits
          expectation_operators := eo
          shots := shots
          transpiler_config := transpiler_config
          run_config := run_config
          return_stddev := return_stddev
          skip_transpilation := skip_transpilation
          use_measurement_mitigation := use_measurement_mitigation } }

/-- Modelled from the spec: the per-result metadata entry of an
`EstimatorResult` of the external SDK (the Estimator implementation is not
under src/; only the notebook showing its printed results is): each entry
carries a variance and a shot count. -/
structure EstimatorMetadataEntry (V : Type) where
  variance : V
  shots : ℕ
deriving DecidableEq

/-- Modelled from the spec: the result object the estimator context returns
— an array of expectation values and a list of per-result metadata. -/
structure EstimatorResult (V : Type) where
  values : List V
  metadata : List (EstimatorMetadataEntry V)
deriving DecidableEq

/-- Modelled from the spec: the state an `Estimator` session caches — the
registered circuits and observables, the remote evaluation of an
expectation value and of its variance for a (circuit, observable,
parameter values) triple, and the shot count the service uses. -/
structure EstimatorSession (C O V : Type) where
  circuits : List C
  observables : List O
  expvalOf : C → O → List ℚ → V
  varianceOf : C → O → List ℚ → V
  runShots : ℕ

/-- A circuit argument in a call to the estimator: an index into the
session's circuit list, or a circuit object. -/
inductive CircSel (C : Type) where
  | idx (i : ℕ)
  | obj (c : C)
deriving DecidableEq

/-- An observable argument in a call to the estimator: an index into the
session's observable list, or an observable object. -/
inductive ObsSel (O : Type) where
  | idx (i : ℕ)
  | obj (o : O)
deriving DecidableEq

/-- Resolution of a circuit argument against the session. -/
def resolveCirc {C O V : Type} [Inhabited C] (s : EstimatorSession C O V) :
    CircSel C → C
  | .idx i => s.circuits.getD i default
  | .obj c => c

/-- Resolution of an observable argument against the session. -/
def resolveObs {C O V : Type} [Inhabited O] (s : EstimatorSession C O V) :
    ObsSel O → O
  | .idx i => s.observables.getD i default
  | .obj o => o

/-- Elementwise pairing of three lists, cut at the shortest. -/
def zip3 {A B D : Type} : List A → List B → List D → List (A × B × D)
  | a :: as, b :: bs, d :: ds => (a, b, d) :: zip3 as bs ds
  | _, _, _ => []

/-- Modelled from the spec: a call to the estimator context object with
circuit, observable and parameter-value lists evaluates each (circuit,
observable, parameter) triple in order and returns an `EstimatorResult`
with one value and one metadata entry (variance and shot count) per
triple. -/
def estimatorCall {C O V : Type} [Inhabited C] [Inhabited O]
    (s : EstimatorSession C O V) (cs : List (CircSel C))
    (os : List (ObsSel O)) (ps : List (List ℚ)) : EstimatorResult V :=
  let triples := zip3 cs os ps
  { values := triples.map fun t => s.expvalOf (resolveCirc s t.1) (resolveObs s t.2.1) t.2.2
    metadata := triples.map fun t =>
      { variance := s.varianceOf (resolveCirc s t.1) (resolveObs s t.2.1) t.2.2
        shots := s.runShots } }

/-- The i-th value/metadata pair of an estimator call matches the i-th
(circuit, observable, parameter) triple of the supplied lists. -/
def estimatorMatchesAt {C O V : Type} [Inhabited C] [Inhabited O] [Inhabited V]
    (s : EstimatorSession C O V) (cs : List (CircSel C))
    (os : List (ObsSel O)) (ps : List (List ℚ)) (i : ℕ) : Prop :=
  (estimatorCall s cs os ps).values.getD i default
      = s.expvalOf (resolveCirc s (cs.getD i (.idx 0)))
          (resolveObs s (os.getD i (.idx 0))) (ps.getD i []) ∧
  (estimatorCall s cs os ps).metadata.getD i { variance := default, shots := 0 }
      = { variance := s.varianceOf (resolveCirc s (cs.getD i (.idx 0)))
            (resolveObs s (os.getD i (.idx 0))) (ps.getD i [])
          shots := s.runShots }

/-- A property entry of the parameter schema of a runtime program: its
description, its JSON type (one or several type names), and an optional
default. -/
structure PropSpec where
  description : String
  types : List String
  dflt : Option Bool
deriving DecidableEq

/-- The parameter schema of a runtime program (a JSON schema dictionary):
the schema draft URL, the named properties in order, and the list of
required parameter names. -/
structure ParamSchema where
  schemaUrl : String
  properties : List (String × PropSpec)
  required : List String
deriving DecidableEq

/-- The return-value schema of a runtime program. -/
structure ReturnSchema where
  schemaUrl : String
  description : String
  type : String
deriving DecidableEq

/-- The `spec` sub-dictionary of the program metadata. -/
structure ProgramSpecDict where
  parameters : ParamSchema
  return_values : ReturnSchema
deriving DecidableEq

/-- The program metadata dictionary accepted by `upload_program`. -/
structure ProgramMetadata where
  name : String
  description : String
  max_execution_time : ℕ
  spec : ProgramSpecDict
deriving DecidableEq

/-- The `meta` dictionary of
`docs/tutorials/how-to-getting-started-with-estimator.ipynb`, field for
field (the notebook writes `"$schema"` for the draft URL; booleans
`False` become `some false`, absent defaults `none`). -/
def sampleExpvalMeta : ProgramMetadata where
  name := "sample-expval"
  description := "A sample expectation value program."
  max_execution_time := 1000
  spec :=
    { parameters :=
        { schemaUrl := "https://json-schema.org/draft/2019-09/schema"
          properties :=
            [ ("circuits",
                { description := "A single or list of QuantumCircuits."
                  types := ["array", "object"]
                  dflt := none }),
              ("expectation_operators",
                { description := "One or more expectation values to evaluate."
                  types := ["string", "object", "array"]
                  dflt := none }),
              ("shots",
                { description := "Number of shots per circuit."
                  types := ["integer"]
                  dflt := none }),
              ("transpiler_config",
                { description := "A collection of kwargs passed to transpile."
                  types := ["object"]
                  dflt := none }),
              ("run_config",
                { description := "A collection of kwargs passed to backend.run. Default is False."
                  types := ["object"]
                  dflt := some false }),
              ("return_stddev",
                { description := "Return upper-bound on standard deviation. Default is False."
                  types := ["boolean"]
                  dflt := some false }),
              ("use_measurement_mitigation",
                { description := "Use measurement mitigation to improve results. Default is False."
                  types := ["boolean"]
                  dflt := some false }) ]
          required := ["circuits"] }
      return_values :=
        { schemaUrl := "https://json-schema.org/draft/2019-09/schema"
          description := "A list of expectation values and optionally standard deviations."
          type := "array" } }

/-- Modelled from the spec: a program stored by the runtime service after
`upload_program` — the uploaded file, its metadata, and its entrypoint
semantics (`I` inputs, `V` return value). -/
structure UploadedProgram (I V : Type) where
  data : String
  metadata : ProgramMetadata
  entry : I → V

/-- Modelled from the spec: the service handle the notebooks initialize —
it knows the backends available to the authenticated user and the uploaded
programs (id/program pairs, most recent first). -/
structure QiskitRuntimeService (I V : Type) where
  userBackends : List IBMBackend
  programs : List (String × UploadedProgram I V)

/-- Modelled from the spec: `QiskitRuntimeService.backends()` returns the
list of all backends available to the authenticated user. -/
def QiskitRuntimeService.backends {I V : Type} (s : QiskitRuntimeService I V) :
    List IBMBackend :=
  s.userBackends

/-- Modelled from the spec: `service.upload_program(data=..., metadata=...)`
stores the program under a fresh identifier derived from the metadata name
and returns that identifier together with the updated service state. -/
def QiskitRuntimeService.upload_program {I V : Type}
    (s : QiskitRuntimeService I V) (data : String)
    (metadata : ProgramMetadata) (entry : I → V) :
    String × QiskitRuntimeService I V :=
  let program_id := metadata.name ++ "-" ++ toString s.programs.length
  (program_id,
    { s with programs := (program_id, ⟨data, metadata, entry⟩) :: s.programs })

/-- Modelled from the spec: the job handle of a submitted run — the value
observable at each instant of discrete time (`none` while the job is still
running, `some v` from the completion instant on), together with the fact
that the job eventually completes. -/
structure RuntimeJob (V : Type) where
  statusAt : ℕ → Option V
  completes : ∃ t, (statusAt t).isSome = true

/-- Modelled from the spec: the job created for a program run — it carries
no observable value before the completion instant `T`, and the program's
return value from `T` on. -/
def mkJob {I V : Type} (entry : I → V) (inputs : I) (T : ℕ) : RuntimeJob V where
  statusAt := fun t => if T ≤ t then some (entry inputs) else none
  completes := ⟨T, by simp⟩

/-- Modelled from the spec: the blocking `result()` accessor — it waits for
the first instant at which the job has completed and returns that instant
together with the value observed there. -/
def RuntimeJob.result {V : Type} (j : RuntimeJob V) : ℕ × V :=
  (Nat.find j.completes, (j.statusAt (Nat.find j.completes)).get (Nat.find_spec j.completes))

/-- Modelled from the spec: `service.run(program_id, options=..., inputs=...)`
submits the named program and returns a job handle completing at some
instant `T`, or nothing when no program is stored under the identifier. -/
def QiskitRuntimeService.run {I V : Type} (s : QiskitRuntimeService I V)
    (program_id : String) (inputs : I) (T : ℕ) : Option (RuntimeJob V) :=
  match s.programs.lookup program_id with
  | some prog => some (mkJob prog.entry inputs T)
  | none => none

/-- C1: for a non-empty probability dictionary, the key set of
`heavy_projector qv_probs` is exactly the set of keys of `qv_probs` whose
associated probability lies strictly above the median of all the values. -/
theorem heavy_projector_keys_above_median (qv_probs : List (String × ℚ))
    (hne : qv_probs ≠ []) :
    ∀ k : String,
      k ∈ (heavy_projector qv_probs).map Prod.fst ↔
        ∃ v : ℚ, (k, v) ∈ qv_probs ∧ npMedian (qv_probs.map Prod.snd) < v := by
  intro k
  simp only [heavy_projector, List.map_map, List.mem_map, Function.comp,
    List.mem_filter, decide_eq_true_eq]
  constructor
  · rintro ⟨⟨a, b⟩, ⟨hmem, hlt⟩, rfl⟩
    exact ⟨b, hmem, hlt⟩
  · rintro ⟨v, hmem, hlt⟩
    exact ⟨(k, v), ⟨hmem, hlt⟩, rfl⟩

/-- C1, witness: the theorem applied to the concrete dictionary
`[("000", 4), ("001", 2), ("010", 1)]` (median 2; heavy key "000"). -/
theorem heavy_projector_keys_above_median_witness :
    ([("000", (4 : ℚ)), ("001", 2), ("010", 1)] ≠ []) ∧
    (∀ k : String,
      k ∈ (heavy_projector [("000", (4 : ℚ)), ("001", 2), ("010", 1)]).map Prod.fst ↔
        ∃ v : ℚ, (k, v) ∈ [("000", (4 : ℚ)), ("001", 2), ("010", 1)] ∧
          npMedian ([("000", (4 : ℚ)), ("001", 2), ("010", 1)].map Prod.snd) < v) :=
  ⟨by simp, heavy_projector_keys_above_median _ (by simp)⟩

/-- C8: `heavy_projector` returns a projector specification, not a
sub-distribution — its key set is a subset of the input's key set and every
returned value equals `1`. -/
theorem heavy_projector_is_projector (qv_probs : List (String × ℚ)) :
    ((heavy_projector qv_probs).map Prod.fst ⊆ qv_probs.map Prod.fst) ∧
    ∀ p ∈ heavy_projector qv_probs, p.2 = 1 := by
  constructor
  · intro a ha
    simp only [heavy_projector, List.map_map, List.mem_map, Function.comp,
      List.mem_filter, decide_eq_true_eq] at ha
    obtain ⟨kv, ⟨hmem, _⟩, rfl⟩ := ha
    exact List.mem_map_of_mem Prod.fst hmem
  · intro p hp
    simp only [heavy_projector, List.mem_map, List.mem_filter] at hp
    obtain ⟨kv, _, rfl⟩ := hp
    rfl

/-- Python `[a] * n` flattens to `n` copies of `a`. -/
theorem flatten_replicate_singleton {A : Type} (n : ℕ) (a : A) :
    (List.replicate n [a]).flatten = List.replicate n a := by
  induction n with
  | zero => rfl
  | succ n ih => simp [List.replicate_succ, ih]

/-- C2, counterexample: two circuits and one operator are lists of differing
lengths, yet `expectation_value_runner` raises nothing — it submits a run
request (broadcasting the lone operator) instead of raising `ValueError`. -/
theorem expectation_value_runner_mismatch_cex :
    ((["qc1", "qc2"] : List String).length ≠ (["ZZZZ"] : List String).length) ∧
    expectation_value_runner "sample-expval-RL2YzPQEe1" (.str "ibmq_qasm_simulator")
        (CircInput.list ["qc1", "qc2"]) (OpsInput.list ["ZZZZ"]) 8192 () () false false false
      = Except.ok
          { program_id := "sample-expval-RL2YzPQEe1"
            backend_name := "ibmq_qasm_simulator"
            inputs :=
              { circuits := .list ["qc1", "qc2"]
                expectation_operators := .list ["ZZZZ", "ZZZZ"]
                shots := 8192
                transpiler_config := ()
                run_config := ()
                return_stddev := false
                skip_transpilation := false
                use_measurement_mitigation := false } } :=
  ⟨by decide, rfl⟩

/-- C2, amended: when both arguments are lists, the circuit list does not
have exactly one element, the operator list does not have exactly one
element, and the two lengths differ, `expectation_value_runner` raises
`ValueError` and submits no run request. -/
theorem expectation_value_runner_mismatch_raises {C O TC RC : Type}
    (program_id : String) (backend : BackendIn) (cs : List C) (os : List O)
    (shots : ℕ) (tc : TC) (rc : RC) (st rs um : Bool)
    (h1 : cs.length ≠ 1) (h2 : os.length ≠ 1) (h3 : cs.length ≠ os.length) :
    expectation_value_runner program_id backend (.list cs) (.list os) shots tc rc st rs um
      = Except.error "Number of circuits must match number of expectation values if more than one of each" := by
  simp [expectation_value_runner, h1, h2, h3, Except.map]

/-- C2, witness: the amended theorem applied to two circuits and three
operators. -/
theorem expectation_value_runner_mismatch_raises_witness :
    (([1, 2] : List ℕ).length ≠ 1) ∧
    ((["IZ", "ZI", "ZZ"] : List String).length ≠ 1) ∧
    (([1, 2] : List ℕ).length ≠ (["IZ", "ZI", "ZZ"] : List String).length) ∧
    expectation_value_runner "pid" (.str "ibmq_qasm_simulator")
        (CircInput.list [1, 2]) (OpsInput.list ["IZ", "ZI", "ZZ"]) 8192 () () false false false
      = Except.error "Number of circuits must match number of expectation values if more than one of each" :=
  ⟨by decide, by decide, by decide,
    expectation_value_runner_mismatch_raises "pid" (.str "ibmq_qasm_simulator")
      [1, 2] ["IZ", "ZI", "ZZ"] 8192 () () false false false
      (by decide) (by decide) (by decide)⟩

/-- C9: with `n ≥ 2` circuits and a single-element operator list the runner
does not raise — it submits inputs whose operator list is that operator
replicated `n` times, pairing every circuit with the same operator. -/
theorem expectation_value_runner_broadcast {C O TC RC : Type}
    (program_id : String) (backend : BackendIn) (cs : List C) (op : O)
    (shots : ℕ) (tc : TC) (rc : RC) (st rs um : Bool)
    (h : 2 ≤ cs.length) :
    expectation_value_runner program_id backend (.list cs) (.list [op]) shots tc rc st rs um
      = Except.ok
          { program_id := program_id
            backend_name := backendNameOf backend
            inputs :=
              { circuits := .list cs
                expectation_operators := .list (List.replicate cs.length op)
                shots := shots
                transpiler_config := tc
                run_config := rc
                return_stddev := rs
                skip_transpilation := st
                use_measurement_mitigation := um } } := by
  have h1 : cs.length ≠ 1 := by omega
  simp [expectation_value_runner, h1, pyListMul, flatten_replicate_singleton, Except.map]

/-- C9, witness: the broadcast theorem applied to two circuits and the lone
operator `"ZZZZ"`. -/
theorem expectation_value_runner_broadcast_witness :
    (2 ≤ ([10, 20] : List ℕ).length) ∧
    expectation_value_runner "pid" (.str "ibmq_manila")
        (CircInput.list [10, 20]) (OpsInput.list ["ZZZZ"]) 8192 () () false false false
      = Except.ok
          { program_id := "pid"
            backend_name := backendNameOf (.str "ibmq_manila")
            inputs :=
              { circuits := .list [10, 20]
                expectation_operators := .list (List.replicate ([10, 20] : List ℕ).length "ZZZZ")
                shots := 8192
                transpiler_config := ()
                run_config := ()
                return_stddev := false
                skip_transpilation := false
                use_measurement_mitigation := false } } :=
  ⟨by decide,
    expectation_value_runner_broadcast "pid" (.str "ibmq_manila")
      [10, 20] "ZZZZ" 8192 () () false false false (by decide)⟩

/-- C3: `main` wraps the external measurement-mitigation library.  With
mitigation on, its result is computed from the quasi-probability
distributions obtained by applying the M3 correction — calibrated over the
final measurement mapping of the transpiled circuits — to the raw counts;
with mitigation off, directly from the raw counts; in either branch
`return_stddev` selects (expectation, stddev) pairs versus plain
expectation values. -/
theorem main_wraps_mthree {C K Q O V M : Type} (env : MthreeEnv C K Q O V M)
    (circuits : CircInput C) (ops : OpsInput O) (skip stddev : Bool) :
    (SampleExpval.main env circuits ops skip stddev true =
      (let trans := transCircuitsOf env circuits skip
       let raw := getCounts (trans.map env.run1)
       let quasi :=
         mapData (fun c => env.correct1 (env.finalMeasurementMapping trans) c stddev) raw
       let quasi2 := if duplicateResults ops trans then dupData (opsLen ops) quasi else quasi
       if stddev then MainOut.pairs (expvalD env.qexpvalStddev1 quasi2 ops)
       else MainOut.vals (expvalD env.qexpval1 quasi2 ops))) ∧
    (SampleExpval.main env circuits ops skip stddev false =
      (let trans := transCircuitsOf env circuits skip
       let raw := getCounts (trans.map env.run1)
       let raw2 := if duplicateResults ops trans then dupData (opsLen ops) raw else raw
       if stddev then MainOut.pairs (expvalD env.expvalStddev1 raw2 ops)
       else MainOut.vals (expvalD env.expval1 raw2 ops))) ∧
    (∀ um : Bool,
      (SampleExpval.main env circuits ops skip true um).isPairs = true ∧
      (SampleExpval.main env circuits ops skip false um).isPairs = false) := by
  refine ⟨rfl, rfl, ?_⟩
  intro um
  cases um <;> exact ⟨rfl, rfl⟩

/-- Replicated left argument of a zip is a map over the right argument. -/
theorem zipWith_replicate_left {A B D : Type} (f : A → B → D) (x : A) (os : List B) :
    List.zipWith f (List.replicate os.length x) os = os.map (f x) := by
  induction os with
  | nil => rfl
  | cons o os ih => simp [List.replicate_succ, ih]

/-- C10: with exactly one circuit (bare or as a one-element list, with or
without transpilation) and a non-empty list of `k` operators, `main`
replicates the single circuit's counts data `k` times before computing
expectation values, so every branch returns one entry per operator, each
computed from the same counts. -/
theorem main_single_circuit_duplicates {C K Q O V M : Type}
    (env : MthreeEnv C K Q O V M) (circuits : CircInput C) (c : C)
    (os : List O) (skip : Bool)
    (hc : circuits = .single c ∨ circuits = .list [c]) (hos : os ≠ []) :
    (SampleExpval.main env circuits (.list os) skip false false
      = .vals (os.map (env.expval1 (env.run1 (if skip then c else env.transpile1 c))))) ∧
    (SampleExpval.main env circuits (.list os) skip true false
      = .pairs (os.map (env.expvalStddev1 (env.run1 (if skip then c else env.transpile1 c))))) ∧
    (SampleExpval.main env circuits (.list os) skip false true
      = .vals (os.map (env.qexpval1
          (env.correct1 (env.finalMeasurementMapping [if skip then c else env.transpile1 c])
            (env.run1 (if skip then c else env.transpile1 c)) false)))) ∧
    (SampleExpval.main env circuits (.list os) skip true true
      = .pairs (os.map (env.qexpvalStddev1
          (env.correct1 (env.finalMeasurementMapping [if skip then c else env.transpile1 c])
            (env.run1 (if skip then c else env.transpile1 c)) true)))) ∧
    (∀ stddev um : Bool,
      (SampleExpval.main env circuits (.list os) skip stddev um).outLen = os.length) := by
  have hoe : os.isEmpty = false := by
    cases os with
    | nil => exact absurd rfl hos
    | cons o os => rfl
  have htrans : transCircuitsOf env circuits skip = [if skip then c else env.transpile1 c] := by
    rcases hc with rfl | rfl <;> cases skip <;> simp [transCircuitsOf]
  have h1 : SampleExpval.main env circuits (.list os) skip false false
      = .vals (os.map (env.expval1 (env.run1 (if skip then c else env.transpile1 c)))) := by
    simp [SampleExpval.main, htrans, duplicateResults, getCounts, mapData, dupData,
      expvalD, opsLen, hoe, zipWith_replicate_left]
  have h2 : SampleExpval.main env circuits (.list os) skip true false
      = .pairs (os.map (env.expvalStddev1 (env.run1 (if skip then c else env.transpile1 c)))) := by
    simp [SampleExpval.main, htrans, duplicateResults, getCounts, mapData, dupData,
      expvalD, opsLen, hoe, zipWith_replicate_left]
  have h3 : SampleExpval.main env circuits (.list os) skip false true
      = .vals (os.map (env.qexpval1
          (env.correct1 (env.finalMeasurementMapping [if skip then c else env.transpile1 c])
            (env.run1 (if skip then c else env.transpile1 c)) false))) := by
    simp [SampleExpval.main, htrans, duplicateResults, getCounts, mapData, dupData,
      expvalD, opsLen, hoe, zipWith_replicate_left]
  have h4 : SampleExpval.main env circuits (.list os) skip true true
      = .pairs (os.map (env.qexpvalStddev1
          (env.correct1 (env.finalMeasurementMapping [if skip then c else env.transpile1 c])
            (env.run1 (if skip then c else env.transpile1 c)) true))) := by
    simp [SampleExpval.main, htrans, duplicateResults, getCounts, mapData, dupData,
      expvalD, opsLen, hoe, zipWith_replicate_left]
  refine ⟨h1, h2, h3, h4, ?_⟩
  intro stddev um
  cases stddev <;> cases um <;>
    simp [h1, h2, h3, h4, MainOut.outLen]

/-- A concrete environment over natural numbers, used to instantiate the
single-circuit duplication theorem. -/
def natEnv : MthreeEnv ℕ ℕ ℕ ℕ ℕ ℕ where
  transpile1 := fun c => c + 100
  run1 := fun c => c * 2
  finalMeasurementMapping := fun cs => cs.length
  correct1 := fun m k b => m + k + (if b then 1 else 0)
  expval1 := fun k o => k + o
  expvalStddev1 := fun k o => (k + o, 1)
  qexpval1 := fun q o => q * o
  qexpvalStddev1 := fun q o => (q * o, 2)

/-- C10, witness: the duplication theorem applied to the bare circuit `5`
and the two operators `[3, 4]`, without `skip_transpilation`. -/
theorem main_single_circuit_duplicates_witness :
    ((CircInput.single 5 = CircInput.single 5 ∨
        CircInput.single (5 : ℕ) = CircInput.list [5])) ∧
    (([3, 4] : List ℕ) ≠ []) ∧
    ((SampleExpval.main natEnv (CircInput.single 5) (.list [3, 4]) false false false
      = .vals ([3, 4].map (natEnv.expval1 (natEnv.run1 (if false then 5 else natEnv.transpile1 5))))) ∧
    (SampleExpval.main natEnv (CircInput.single 5) (.list [3, 4]) false true false
      = .pairs ([3, 4].map (natEnv.expvalStddev1 (natEnv.run1 (if false then 5 else natEnv.transpile1 5))))) ∧
    (SampleExpval.main natEnv (CircInput.single 5) (.list [3, 4]) false false true
      = .vals ([3, 4].map (natEnv.qexpval1
          (natEnv.correct1 (natEnv.finalMeasurementMapping [if false then 5 else natEnv.transpile1 5])
            (natEnv.run1 (if false then 5 else natEnv.transpile1 5)) false)))) ∧
    (SampleExpval.main natEnv (CircInput.single 5) (.list [3, 4]) false true true
      = .pairs ([3, 4].map (natEnv.qexpvalStddev1
          (natEnv.correct1 (natEnv.finalMeasurementMapping [if false then 5 else natEnv.transpile1 5])
            (natEnv.run1 (if false then 5 else natEnv.transpile1 5)) true)))) ∧
    (∀ stddev um : Bool,
      (SampleExpval.main natEnv (CircInput.single 5) (.list [3, 4]) false stddev um).outLen
        = ([3, 4] : List ℕ).length)) :=
  ⟨Or.inl rfl, by decide,
    main_single_circuit_duplicates natEnv (CircInput.single 5) 5 [3, 4] false
      (Or.inl rfl) (by decide)⟩

/-- Length of a triple zip over three lists of the same length. -/
theorem zip3_length {A B D : Type} (as : List A) (bs : List B) (ds : List D)
    (k : ℕ) (h1 : as.length = k) (h2 : bs.length = k) (h3 : ds.length = k) :
    (zip3 as bs ds).length = k := by
  induction as generalizing bs ds k with
  | nil => simp at h1; subst h1; simp [zip3]
  | cons a as ih =>
    cases bs with
    | nil => exfalso; simp at h1 h2; omega
    | cons b bs =>
      cases ds with
      | nil => exfalso; simp at h1 h3; omega
      | cons d ds =>
        simp only [zip3, List.length_cons] at h1 h2 h3 ⊢
        have := ih bs ds (k - 1) (by omega) (by omega) (by omega)
        omega

/-- In-range `getD` commutes with `map` for any defaults. -/
theorem getD_map_of_lt {A B : Type} (l : List A) (f : A → B) (i : ℕ)
    (hi : i < l.length) (d : B) (d0 : A) :
    (l.map f).getD i d = f (l.getD i d0) := by
  induction l generalizing i with
  | nil => simp at hi
  | cons a l ih =>
    cases i with
    | zero => rfl
    | succ i =>
      simp only [List.map_cons, List.getD_cons_succ]
      exact ih i (by simpa using hi)

/-- The i-th entry of a triple zip is the triple of i-th entries. -/
theorem zip3_getD {A B D : Type} (as : List A) (bs : List B) (ds : List D)
    (i k : ℕ) (hi : i < k) (h1 : as.length = k) (h2 : bs.length = k)
    (h3 : ds.length = k) (da : A) (db : B) (dd : D) :
    (zip3 as bs ds).getD i (da, db, dd)
      = (as.getD i da, bs.getD i db, ds.getD i dd) := by
  induction as generalizing bs ds i k with
  | nil => simp at h1; omega
  | cons a as ih =>
    cases bs with
    | nil => exfalso; simp at h1 h2; omega
    | cons b bs =>
      cases ds with
      | nil => exfalso; simp at h1 h3; omega
      | cons d ds =>
        cases i with
        | zero => rfl
        | succ i =>
          simp only [zip3, List.getD_cons_succ]
          exact ih bs ds i (k - 1) (by omega) (by simp at h1; omega)
            (by simp at h2; omega) (by simp at h3; omega)

/-- C4: a call to the estimator context with `k` circuit selectors, `k`
observable selectors and `k` parameter-value lists returns exactly `k`
expectation values and `k` metadata entries, each carrying a variance and
the session's shot count, the i-th value/metadata pair computed from the
i-th (circuit, observable, parameter) triple. -/
theorem estimator_call_shape {C O V : Type} [Inhabited C] [Inhabited O] [Inhabited V]
    (s : EstimatorSession C O V) (cs : List (CircSel C)) (os : List (ObsSel O))
    (ps : List (List ℚ)) (k : ℕ)
    (h1 : cs.length = k) (h2 : os.length = k) (h3 : ps.length = k) :
    (estimatorCall s cs os ps).values.length = k ∧
    (estimatorCall s cs os ps).metadata.length = k ∧
    (∀ e ∈ (estimatorCall s cs os ps).metadata, e.shots = s.runShots) ∧
    ∀ i, i < k → estimatorMatchesAt s cs os ps i := by
  have hz : (zip3 cs os ps).length = k := zip3_length cs os ps k h1 h2 h3
  refine ⟨by simp [estimatorCall, hz], by simp [estimatorCall, hz], ?_, ?_⟩
  · intro e he
    simp only [estimatorCall, List.mem_map] at he
    obtain ⟨t, _, rfl⟩ := he
    rfl
  · intro i hi
    have hz3 := zip3_getD cs os ps i k hi h1 h2 h3 (CircSel.idx 0) (ObsSel.idx 0) []
    constructor
    · show ((zip3 cs os ps).map _).getD i default = _
      rw [getD_map_of_lt _ _ i (by omega) default (CircSel.idx 0, ObsSel.idx 0, []), hz3]
    · show ((zip3 cs os ps).map _).getD i _ = _
      rw [getD_map_of_lt _ _ i (by omega) _ (CircSel.idx 0, ObsSel.idx 0, []), hz3]

/-- A concrete two-circuit, three-observable session over natural numbers,
used to instantiate the estimator shape theorem. -/
def natSession : EstimatorSession ℕ ℕ ℕ where
  circuits := [10, 20]
  observables := [30, 40, 50]
  expvalOf := fun c o p => c + o + p.length
  varianceOf := fun c o p => c * o + p.length
  runShots := 1024

/-- C4, witness: the shape theorem applied to two index/object selectors
and two parameter lists. -/
theorem estimator_call_shape_witness :
    (([CircSel.idx 0, CircSel.obj 7] : List (CircSel ℕ)).length = 2) ∧
    (([ObsSel.idx 1, ObsSel.idx 0] : List (ObsSel ℕ)).length = 2) ∧
    (([[1, 2], [3]] : List (List ℚ)).length = 2) ∧
    ((estimatorCall natSession [CircSel.idx 0, CircSel.obj 7]
        [ObsSel.idx 1, ObsSel.idx 0] [[1, 2], [3]]).values.length = 2 ∧
    (estimatorCall natSession [CircSel.idx 0, CircSel.obj 7]
        [ObsSel.idx 1, ObsSel.idx 0] [[1, 2], [3]]).metadata.length = 2 ∧
    (∀ e ∈ (estimatorCall natSession [CircSel.idx 0, CircSel.obj 7]
        [ObsSel.idx 1, ObsSel.idx 0] [[1, 2], [3]]).metadata,
      e.shots = natSession.runShots) ∧
    ∀ i, i < 2 → estimatorMatchesAt natSession [CircSel.idx 0, CircSel.obj 7]
        [ObsSel.idx 1, ObsSel.idx 0] [[1, 2], [3]] i) :=
  ⟨rfl, rfl, rfl,
    estimator_call_shape natSession [CircSel.idx 0, CircSel.obj 7]
      [ObsSel.idx 1, ObsSel.idx 0] [[1, 2], [3]] 2 rfl rfl rfl⟩

/-- C5: the `sample-expval` program metadata carries a name, a description,
the execution-time limit 1000, a parameter schema in which `circuits` is
the only required parameter, and an array-typed return-value schema; and
`upload_program` given the program file and this metadata returns an
identifier under which the program can later be run (running it yields the
job for the uploaded program's entrypoint). -/
theorem sample_expval_meta_upload {I V : Type} (s : QiskitRuntimeService I V)
    (data : String) (entry : I → V) (inputs : I) (T : ℕ) :
    sampleExpvalMeta.name = "sample-expval" ∧
    sampleExpvalMeta.description = "A sample expectation value program." ∧
    sampleExpvalMeta.max_execution_time = 1000 ∧
    sampleExpvalMeta.spec.parameters.required = ["circuits"] ∧
    sampleExpvalMeta.spec.return_values.type = "array" ∧
    ((s.upload_program data sampleExpvalMeta entry).2.run
        (s.upload_program data sampleExpvalMeta entry).1 inputs T
      = some (mkJob entry inputs T)) := by
  refine ⟨rfl, rfl, rfl, rfl, rfl, ?_⟩
  simp [QiskitRuntimeService.run, QiskitRuntimeService.upload_program, List.lookup]

/-- C6: `backends()` on an initialized service handle returns the list of
all backends available to the authenticated user. -/
theorem backends_lists_user_backends {I V : Type} (s : QiskitRuntimeService I V) :
    s.backends = s.userBackends ∧
    ∀ b : IBMBackend, b ∈ s.backends ↔ b ∈ s.userBackends :=
  ⟨rfl, fun _ => Iff.rfl⟩

/-- C7: the job handle returned by `service.run` has a blocking `result()`:
the observation instant equals the completion instant `T`, nothing is
observable at any earlier instant, the value observed is exactly the value
the job completed with, and that value is the stored program's return value
on the submitted inputs. -/
theorem job_result_blocking {I V : Type} (s : QiskitRuntimeService I V)
    (program_id : String) (inputs : I) (T : ℕ) (job : RuntimeJob V)
    (h : s.run program_id inputs T = some job) :
    job.result.1 = T ∧
    (∀ t, t < job.result.1 → job.statusAt t = none) ∧
    job.statusAt job.result.1 = some job.result.2 ∧
    ∀ prog, s.programs.lookup program_id = some prog →
      job.result.2 = prog.entry inputs := by
  rcases hl : s.programs.lookup program_id with _ | prog <;>
    rw [QiskitRuntimeService.run, hl] at h
  · exact absurd h (by simp)
  · have hj : job = mkJob prog.entry inputs T := (Option.some_inj.mp h).symm
    subst hj
    have hfind : Nat.find (mkJob prog.entry inputs T).completes = T := by
      rw [Nat.find_eq_iff]
      refine ⟨by simp [mkJob], ?_⟩
      intro n hn
      simp [mkJob, Nat.not_le.mpr hn]
    refine ⟨?_, ?_, ?_, ?_⟩
    · simp [RuntimeJob.result, hfind]
    · intro t ht
      simp only [RuntimeJob.result, hfind] at ht
      simp [mkJob, Nat.not_le.mpr ht]
    · simp [RuntimeJob.result, hfind, mkJob]
    · intro prog2 hl2
      have hp : prog2 = prog := (Option.some_inj.mp hl2).symm
      subst hp
      simp [RuntimeJob.result, hfind, mkJob]

/-- A concrete service over natural-number inputs and values, holding one
uploaded program, used to instantiate the blocking-result theorem. -/
def sampleService : QiskitRuntimeService ℕ ℕ where
  userBackends := [{ name := "ibmq_qasm_simulator" }]
  programs :=
    [("sample-expval-0",
      { data := "sample_expval.py", metadata := sampleExpvalMeta, entry := fun n => n + 1 })]

/-- The job the sample service returns for its stored program, completing
at instant 3 on input 41. -/
def sampleJob : RuntimeJob ℕ := mkJob (fun n => n + 1) 41 3

/-- C7, witness: the blocking-result theorem applied to the sample service,
its stored program identifier, input 41 and completion instant 3. -/
theorem job_result_blocking_witness :
    (sampleService.run "sample-expval-0" 41 3 = some sampleJob) ∧
    (sampleJob.result.1 = 3 ∧
    (∀ t, t < sampleJob.result.1 → sampleJob.statusAt t = none) ∧
    sampleJob.statusAt sampleJob.result.1 = some sampleJob.result.2 ∧
    ∀ prog, sampleService.programs.lookup "sample-expval-0" = some prog →
      sampleJob.result.2 = prog.entry 41) :=
  ⟨rfl, job_result_blocking sampleService "sample-expval-0" 41 3 sampleJob rfl⟩
